import Mathlib

/-!
Verification of the llvm-src build-configuration helper.

The crate is a single configuration-and-invocation component: a `Build`
builder collects four parameters (host triple, target triple, output
directory, profile) from explicit setters or environment fallbacks,
invokes the cmake driver, scans `<out_dir>/build/lib` for produced
library files, and packages the results into an `Artifacts` value whose
cargo metadata is then printed line by line.

The embedding below models paths as lists of components (all path
segments joined by the crate are relative, so `PathBuf.join` is list
append), OS strings by whether they decode to valid Unicode, the process
environment as an explicit snapshot, and the filesystem plus the external
cmake invocation as an explicit `World`.  Every `panic!`/`expect`/`unwrap`
in the source becomes an `Except.error`, and the single external-process
side effect becomes an event trace returned alongside the result.
-/

namespace LlvmSrc

/-- A filesystem path, modelled as its list of components.  Every path the
crate joins onto another (`llvm-build`, `lib`, `include`, `build/lib`) is
relative, so Rust's `PathBuf::join` is exactly list append here. -/
abbrev Path := List String

/-- Rust's `PathBuf::join`.  The second argument is the appended relative path,
already split into components (the source joins `build/lib` in one call). -/
def Path.join (p : Path) (q : List String) : Path := p ++ q

/-- Rust's `Path::display`, used when printing cargo metadata. -/
def Path.display (p : Path) : String := String.intercalate "/" p

/-- An OS string (`std::ffi::OsString`), abstracted by the one property the
crate observes: whether it is valid Unicode (`utf8? = some s`) or not
(`utf8? = none`, in which case `OsString::into_string` fails). -/
structure OsString where
  utf8? : Option String
deriving DecidableEq, Repr

/-- Rust's `OsString::into_string`, keeping only the success side (the source
unwraps the result immediately). -/
def OsString.intoString? (s : OsString) : Option String := s.utf8?

/-- One entry of `std::fs::read_dir`, abstracted by what the source reads
from it: its file name and whether `file_type()` reports a regular file. -/
structure DirEntry where
  fileName : OsString
  isFile : Bool
deriving DecidableEq, Repr

/-- The state of the outside world that `Build::build` interacts with:
whether the external cmake invocation fails (the cmake crate panics on
failure), and the filesystem as seen by `std::fs::read_dir`: for a path,
`none` models a failing `read_dir`, and each `none` inside a listing
models an unreadable (`Err`) directory entry. -/
structure World where
  cmakeFails : Bool
  read : Path → Option (List (Option DirEntry))

/-- A snapshot of the four environment variables `Build::default` reads.
`OUT_DIR` is read with `env::var_os` and converted via `PathBuf::from`,
so it is carried here already as a path. -/
structure Env where
  HOST : Option String
  TARGET : Option String
  OUT_DIR : Option Path
  PROFILE : Option String

/-- The `Build` configuration struct: four independently optional fields. -/
structure Build where
  host : Option String
  target : Option String
  out_dir : Option Path
  profile : Option String
deriving DecidableEq, Repr

/-- The `Artifacts` result struct produced by `Build::build`. -/
structure Artifacts where
  include_dir : Path
  lib_dir : Path
  libs : List String
deriving DecidableEq, Repr

/-- The ways the crate aborts the process: a failed `expect` with its
message, a failure of the external cmake invocation, or a failed `unwrap`
during directory enumeration (tagged by the unwrapped operation). -/
inductive Panic where
  | expectFail (msg : String)
  | cmakeFail
  | unwrapFail (what : String)
deriving DecidableEq, Repr

/-- The observable external side effect of `Build::build`: exactly one
cmake configure-and-build invocation, recording the four forwarded
parameters.  (The fixed source directory `llvm-15.0.7/llvm` under the
compile-time manifest directory is a constant and is not recorded.) -/
structure Event where
  host : String
  target : String
  out_dir : Path
  profile : String
deriving DecidableEq, Repr

/-- Rust's `Build::default` (also `Build::new`): each field taken from its
environment variable, with `OUT_DIR` additionally joined with the fixed
`llvm-build` segment. -/
def Build.defaultFrom (env : Env) : Build :=
  { host := env.HOST
    target := env.TARGET
    out_dir := env.OUT_DIR.map (fun p => Path.join p ["llvm-build"])
    profile := env.PROFILE }

/-- Rust's `Build::host`: store the given string, unchanged. -/
def Build.setHost (b : Build) (host : String) : Build :=
  { b with host := some host }

/-- Rust's `Build::target`: store the given string, unchanged. -/
def Build.setTarget (b : Build) (target : String) : Build :=
  { b with target := some target }

/-- Rust's `Build::out_dir`: store the given base path joined with the fixed
`llvm-build` segment.  The setter touches no state besides the field and
in particular performs no filesystem access (its Rust signature takes only
`&mut self` and the path). -/
def Build.setOutDir (b : Build) (out : Path) : Build :=
  { b with out_dir := some (Path.join out ["llvm-build"]) }

/-- Rust's `Build::profile`: store the given string, unchanged. -/
def Build.setProfile (b : Build) (profile : String) : Build :=
  { b with profile := some profile }

/-- Index of the last occurrence of `.` in a character list, mirroring
`str::rfind('.')`.  (Indices here count characters while Rust counts
bytes, but `.` is ASCII, so the prefix kept before the last dot is the
same string either way.) -/
def lastDotIdx : List Char → Option Nat
  | [] => none
  | c :: cs =>
    match lastDotIdx cs with
    | some i => some (i + 1)
    | none => if c = '.' then some 0 else none

/-- Rust's `file_name[..last_dot]`: the portion of the name before its last `.`,
or `none` when the name contains no dot (`rfind` returns `None` and the
source unwraps). -/
def stemBeforeLastDot (s : String) : Option String :=
  (lastDotIdx s.data).map (fun i => String.mk (s.data.take i))

/-- The per-entry pipeline body of the `read_dir` iterator chain in
`Build::build`: unwrap the entry, drop non-files, unwrap the Unicode
conversion of the name, unwrap the position of the last dot, keep the
prefix.  Processing is sequential, so the first failing entry aborts and
nothing after it is examined. -/
def collectLibs : List (Option DirEntry) → Except Panic (List String)
  | [] => .ok []
  | none :: _ => .error (.unwrapFail "dir entry")
  | some e :: rest =>
    if e.isFile then
      match e.fileName.intoString? with
      | none => .error (.unwrapFail "into_string")
      | some name =>
        match stemBeforeLastDot name with
        | none => .error (.unwrapFail "rfind")
        | some stem => (collectLibs rest).map (fun libs => stem :: libs)
    else collectLibs rest

/-- Rust's `Build::build`: check the four fields in source order (`host`,
`target`, `profile`, `out_dir`), each absence aborting with its
`... not set` message; then invoke cmake with the four parameters
(recorded as the event trace, second component); then enumerate
`<out_dir>/build/lib` and assemble the `Artifacts`. -/
def Build.build (b : Build) (w : World) : Except Panic Artifacts × List Event :=
  match b.host with
  | none => (.error (.expectFail "HOST not set"), [])
  | some host =>
    match b.target with
    | none => (.error (.expectFail "TARGET not set"), [])
    | some target =>
      match b.profile with
      | none => (.error (.expectFail "PROFILE not set"), [])
      | some profile =>
        match b.out_dir with
        | none => (.error (.expectFail "OUT_DIR not set"), [])
        | some out =>
          let lib_dir := Path.join out ["lib"]
          let include_dir := Path.join out ["include"]
          let trace := [Event.mk host target out profile]
          if w.cmakeFails then (.error .cmakeFail, trace)
          else
            match w.read (Path.join out ["build", "lib"]) with
            | none => (.error (.unwrapFail "read_dir"), trace)
            | some entries =>
              match collectLibs entries with
              | .error p => (.error p, trace)
              | .ok libs => (.ok ⟨include_dir, lib_dir, libs⟩, trace)

/-- Rust's `Artifacts::include`: return the stored include directory. -/
def Artifacts.include (a : Artifacts) : Path := a.include_dir

/-- Rust's `Artifacts::lib`: return the stored lib directory. -/
def Artifacts.lib (a : Artifacts) : Path := a.lib_dir

/-- Rust's `Artifacts::print_cargo_metadata`, modelled as the list of lines it
writes to standard output, in order.  It reads `&self` only, so the
`Artifacts` value is unchanged by construction. -/
def Artifacts.printCargoMetadata (a : Artifacts) : List String :=
  ("cargo:include=" ++ a.include_dir.display)
    :: ("cargo:lib=" ++ a.lib_dir.display)
    :: a.libs.map (fun l => "cargo:rustc-link-lib=" ++ l)

/-- The characterization used by the spec for the library list: one name
per regular, readable, Unicode-named, dot-containing file, in listing
order, equal to the file name truncated before its last dot. -/
def libNamesOf (entries : List (Option DirEntry)) : List String :=
  entries.filterMap (fun e? =>
    e?.bind (fun e =>
      if e.isFile then e.fileName.intoString?.bind stemBeforeLastDot
      else none))

/-- An entry on which the enumeration pipeline does not abort: readable,
and when it is a regular file, its name is Unicode and contains a dot. -/
def entryOk : Option DirEntry → Bool
  | none => false
  | some e =>
    !e.isFile ||
      (match e.fileName.intoString? with
       | none => false
       | some name => name.data.contains '.')

/-! ### Helper lemmas about the enumeration pipeline -/

theorem lastDotIdx_eq_none_iff (cs : List Char) : lastDotIdx cs = none ↔ '.' ∉ cs := by
  induction cs with
  | nil => simp [lastDotIdx]
  | cons c cs ih =>
    unfold lastDotIdx
    cases h : lastDotIdx cs with
    | some i =>
      have : '.' ∈ cs := by
        by_contra hmem
        rw [ih.mpr hmem] at h
        exact Option.noConfusion h
      simp [List.mem_cons, this]
    | none =>
      by_cases hc : c = '.'
      · subst hc
        simp
      · have : '.' ∉ cs := ih.mp h
        simp only [hc, if_false, List.mem_cons, not_or, true_iff]
        exact ⟨fun hd => hc hd.symm, this⟩

theorem stem_eq_none_iff (s : String) : stemBeforeLastDot s = none ↔ '.' ∉ s.data := by
  rw [stemBeforeLastDot, Option.map_eq_none', lastDotIdx_eq_none_iff]

theorem stem_isSome_of_contains (s : String) (h : s.data.contains '.' = true) :
    ∃ t, stemBeforeLastDot s = some t := by
  have hmem : '.' ∈ s.data := by simpa using h
  cases hs : stemBeforeLastDot s with
  | none => exact absurd hmem ((stem_eq_none_iff s).mp hs)
  | some t => exact ⟨t, rfl⟩

theorem collectLibs_eq_ok (entries : List (Option DirEntry))
    (h : entries.all entryOk = true) :
    collectLibs entries = .ok (libNamesOf entries) := by
  induction entries with
  | nil => rfl
  | cons e? rest ih =>
    rw [List.all_cons, Bool.and_eq_true] at h
    obtain ⟨h1, h2⟩ := h
    cases e? with
    | none => exact absurd h1 (by simp [entryOk])
    | some e =>
      cases hf : e.isFile with
      | false => simpa [collectLibs, libNamesOf, hf, List.filterMap_cons] using ih h2
      | true =>
        rw [entryOk, hf] at h1
        cases hn : e.fileName.intoString? with
        | none => rw [hn] at h1; exact absurd h1 (by simp)
        | some name =>
          rw [hn] at h1
          simp only [Bool.not_true, Bool.false_or] at h1
          obtain ⟨t, ht⟩ := stem_isSome_of_contains name h1
          simp [collectLibs, libNamesOf, hf, hn, ht, List.filterMap_cons, ih h2,
            Except.map]

theorem collectLibs_isError_of_bad (entries : List (Option DirEntry))
    (e? : Option DirEntry) (he : e? ∈ entries) (hbad : entryOk e? = false) :
    ∃ p, collectLibs entries = .error p := by
  induction entries with
  | nil => exact absurd he (List.not_mem_nil e?)
  | cons e0 rest ih =>
    rcases List.mem_cons.mp he with h0 | hrest
    · subst h0
      cases e? with
      | none => exact ⟨.unwrapFail "dir entry", rfl⟩
      | some e =>
        rw [entryOk] at hbad
        cases hf : e.isFile with
        | false => rw [hf] at hbad; exact absurd hbad (by simp)
        | true =>
          rw [hf] at hbad
          simp only [Bool.not_true, Bool.false_or] at hbad
          cases hn : e.fileName.intoString? with
          | none => exact ⟨.unwrapFail "into_string", by simp [collectLibs, hf, hn]⟩
          | some name =>
            rw [hn] at hbad
            have hnd : '.' ∉ name.data := by simpa using hbad
            have hstem : stemBeforeLastDot name = none := (stem_eq_none_iff name).mpr hnd
            exact ⟨.unwrapFail "rfind", by simp [collectLibs, hf, hn, hstem]⟩
    · obtain ⟨p, hp⟩ := ih hrest
      cases e0 with
      | none => exact ⟨.unwrapFail "dir entry", rfl⟩
      | some e =>
        cases hf : e.isFile with
        | false => exact ⟨p, by simp [collectLibs, hf, hp]⟩
        | true =>
          cases hn : e.fileName.intoString? with
          | none => exact ⟨.unwrapFail "into_string", by simp [collectLibs, hf, hn]⟩
          | some name =>
            cases hs : stemBeforeLastDot name with
            | none => exact ⟨.unwrapFail "rfind", by simp [collectLibs, hf, hn, hs]⟩
            | some t => exact ⟨p, by simp [collectLibs, hf, hn, hs, hp, Except.map]⟩

/-! ### Claim theorems -/

/-- Claim C2: for every base path, the output-directory setter stores an
effective output directory equal to that base path joined with the fixed
literal segment `llvm-build`.  The setter is a pure record update taking
no `World`, so it performs no filesystem access and the result cannot
depend on whether the base path exists on disk. -/
theorem setOutDir_appends_fixed_segment (b : Build) (p : Path) :
    (b.setOutDir p).out_dir = some (Path.join p ["llvm-build"]) := rfl

/-- Claim C9: each setter modifies only its own field and leaves the other
three unchanged, and the `host`, `target`, and `profile` setters store
exactly the given string with no validation or transformation. -/
theorem setters_frame_conditions (b : Build) (s : String) (p : Path) :
    ((b.setHost s).host = some s ∧ (b.setHost s).target = b.target ∧
      (b.setHost s).out_dir = b.out_dir ∧ (b.setHost s).profile = b.profile) ∧
    ((b.setTarget s).target = some s ∧ (b.setTarget s).host = b.host ∧
      (b.setTarget s).out_dir = b.out_dir ∧ (b.setTarget s).profile = b.profile) ∧
    ((b.setProfile s).profile = some s ∧ (b.setProfile s).host = b.host ∧
      (b.setProfile s).target = b.target ∧ (b.setProfile s).out_dir = b.out_dir) ∧
    ((b.setOutDir p).host = b.host ∧ (b.setOutDir p).target = b.target ∧
      (b.setOutDir p).profile = b.profile) :=
  ⟨⟨rfl, rfl, rfl, rfl⟩, ⟨rfl, rfl, rfl, rfl⟩, ⟨rfl, rfl, rfl, rfl⟩, ⟨rfl, rfl, rfl⟩⟩

/-- Claim C5: metadata emission produces exactly `2 + n` lines for an
`Artifacts` with `n` libraries, in the fixed order: the `cargo:include`
line, then the `cargo:lib` line, then one `cargo:rustc-link-lib` line per
library in list order.  The operation reads the `Artifacts` value only
(its Rust receiver is `&self`), so nothing is returned or modified. -/
theorem printCargoMetadata_lines (a : Artifacts) :
    a.printCargoMetadata.length = 2 + a.libs.length ∧
    a.printCargoMetadata[0]? = some ("cargo:include=" ++ a.include_dir.display) ∧
    a.printCargoMetadata[1]? = some ("cargo:lib=" ++ a.lib_dir.display) ∧
    ∀ i : Nat, a.printCargoMetadata[2 + i]? =
      (a.libs[i]?).map (fun l => "cargo:rustc-link-lib=" ++ l) := by
  refine ⟨?_, by simp [Artifacts.printCargoMetadata], by simp [Artifacts.printCargoMetadata], ?_⟩
  · simp only [Artifacts.printCargoMetadata, List.length_cons, List.length_map]
    omega
  · intro i
    have h2 : 2 + i = (i + 1) + 1 := by omega
    rw [h2]
    simp only [Artifacts.printCargoMetadata, List.getElem?_cons_succ]
    exact List.getElem?_map ..

/-- Claim C6: construction from an environment snapshot is deterministic:
two `Build` configurations constructed from equal snapshots of `HOST`,
`TARGET`, `OUT_DIR`, `PROFILE` agree field for field, and a variable that
is unset leaves the corresponding field unset in both. -/
theorem defaultFrom_deterministic (env₁ env₂ : Env) (h : env₁ = env₂) :
    ((Build.defaultFrom env₁).host = (Build.defaultFrom env₂).host ∧
      (Build.defaultFrom env₁).target = (Build.defaultFrom env₂).target ∧
      (Build.defaultFrom env₁).out_dir = (Build.defaultFrom env₂).out_dir ∧
      (Build.defaultFrom env₁).profile = (Build.defaultFrom env₂).profile) ∧
    (env₁.HOST = none →
      (Build.defaultFrom env₁).host = none ∧ (Build.defaultFrom env₂).host = none) ∧
    (env₁.TARGET = none →
      (Build.defaultFrom env₁).target = none ∧ (Build.defaultFrom env₂).target = none) ∧
    (env₁.OUT_DIR = none →
      (Build.defaultFrom env₁).out_dir = none ∧ (Build.defaultFrom env₂).out_dir = none) ∧
    (env₁.PROFILE = none →
      (Build.defaultFrom env₁).profile = none ∧ (Build.defaultFrom env₂).profile = none) := by
  subst h
  refine ⟨⟨rfl, rfl, rfl, rfl⟩, ?_, ?_, ?_, ?_⟩ <;>
    intro hnone <;> simp [Build.defaultFrom, hnone]

/-- Witness for C6 at a concrete snapshot with `HOST` and `OUT_DIR` unset. -/
theorem defaultFrom_deterministic_witness :
    (Env.mk none (some "x86_64-unknown-linux-gnu") none (some "Release") =
      Env.mk none (some "x86_64-unknown-linux-gnu") none (some "Release")) ∧
    (((Build.defaultFrom (Env.mk none (some "x86_64-unknown-linux-gnu") none (some "Release"))).host =
        (Build.defaultFrom (Env.mk none (some "x86_64-unknown-linux-gnu") none (some "Release"))).host ∧
      (Build.defaultFrom (Env.mk none (some "x86_64-unknown-linux-gnu") none (some "Release"))).target =
        (Build.defaultFrom (Env.mk none (some "x86_64-unknown-linux-gnu") none (some "Release"))).target ∧
      (Build.defaultFrom (Env.mk none (some "x86_64-unknown-linux-gnu") none (some "Release"))).out_dir =
        (Build.defaultFrom (Env.mk none (some "x86_64-unknown-linux-gnu") none (some "Release"))).out_dir ∧
      (Build.defaultFrom (Env.mk none (some "x86_64-unknown-linux-gnu") none (some "Release"))).profile =
        (Build.defaultFrom (Env.mk none (some "x86_64-unknown-linux-gnu") none (some "Release"))).profile) ∧
    ((Env.mk none (some "x86_64-unknown-linux-gnu") none (some "Release")).HOST = none →
      (Build.defaultFrom (Env.mk none (some "x86_64-unknown-linux-gnu") none (some "Release"))).host = none ∧
      (Build.defaultFrom (Env.mk none (some "x86_64-unknown-linux-gnu") none (some "Release"))).host = none) ∧
    ((Env.mk none (some "x86_64-unknown-linux-gnu") none (some "Release")).TARGET = none →
      (Build.defaultFrom (Env.mk none (some "x86_64-unknown-linux-gnu") none (some "Release"))).target = none ∧
      (Build.defaultFrom (Env.mk none (some "x86_64-unknown-linux-gnu") none (some "Release"))).target = none) ∧
    ((Env.mk none (some "x86_64-unknown-linux-gnu") none (some "Release")).OUT_DIR = none →
      (Build.defaultFrom (Env.mk none (some "x86_64-unknown-linux-gnu") none (some "Release"))).out_dir = none ∧
      (Build.defaultFrom (Env.mk none (some "x86_64-unknown-linux-gnu") none (some "Release"))).out_dir = none) ∧
    ((Env.mk none (some "x86_64-unknown-linux-gnu") none (some "Release")).PROFILE = none →
      (Build.defaultFrom (Env.mk none (some "x86_64-unknown-linux-gnu") none (some "Release"))).profile = none ∧
      (Build.defaultFrom (Env.mk none (some "x86_64-unknown-linux-gnu") none (some "Release"))).profile = none)) :=
  ⟨rfl, defaultFrom_deterministic _ _ rfl⟩

/-- Claim C8: when the output directory comes from the `OUT_DIR`
environment variable at construction, the fixed `llvm-build` segment is
likewise appended, so the environment-fallback path and the setter path
store the same effective output directory. -/
theorem out_dir_env_fallback_matches_setter (env : Env) (p : Path) (b : Build)
    (h : env.OUT_DIR = some p) :
    (Build.defaultFrom env).out_dir = some (Path.join p ["llvm-build"]) ∧
    (b.setOutDir p).out_dir = some (Path.join p ["llvm-build"]) := by
  constructor
  · simp [Build.defaultFrom, h]
  · rfl

/-- Witness for C8 at a concrete environment and base path. -/
theorem out_dir_env_fallback_matches_setter_witness :
    (Env.mk none none (some ["target"]) none).OUT_DIR = some ["target"] ∧
    ((Build.defaultFrom (Env.mk none none (some ["target"]) none)).out_dir =
        some (Path.join ["target"] ["llvm-build"]) ∧
      ((Build.mk none none none none).setOutDir ["target"]).out_dir =
        some (Path.join ["target"] ["llvm-build"])) :=
  ⟨rfl, out_dir_env_fallback_matches_setter _ _ _ rfl⟩

/-- Claim C1: with any of the four fields unset, `build` aborts with the
message naming the first missing field in check order (`host`, `target`,
`profile`, `out_dir`), and the event trace is empty: the cmake
configuration/invocation never runs. -/
theorem build_aborts_before_cmake_on_missing_field (b : Build) (w : World)
    (h : b.host = none ∨ b.target = none ∨ b.out_dir = none ∨ b.profile = none) :
    (b.build w).2 = [] ∧
    ((b.host = none ∧ (b.build w).1 = .error (.expectFail "HOST not set")) ∨
      (b.host ≠ none ∧ b.target = none ∧
        (b.build w).1 = .error (.expectFail "TARGET not set")) ∨
      (b.host ≠ none ∧ b.target ≠ none ∧ b.profile = none ∧
        (b.build w).1 = .error (.expectFail "PROFILE not set")) ∨
      (b.host ≠ none ∧ b.target ≠ none ∧ b.profile ≠ none ∧ b.out_dir = none ∧
        (b.build w).1 = .error (.expectFail "OUT_DIR not set"))) := by
  cases hh : b.host with
  | none =>
    exact ⟨by simp [Build.build, hh], Or.inl ⟨rfl, by simp [Build.build, hh]⟩⟩
  | some host =>
    cases ht : b.target with
    | none =>
      exact ⟨by simp [Build.build, hh, ht],
        Or.inr (Or.inl ⟨by simp [hh], rfl, by simp [Build.build, hh, ht]⟩)⟩
    | some target =>
      cases hp : b.profile with
      | none =>
        exact ⟨by simp [Build.build, hh, ht, hp],
          Or.inr (Or.inr (Or.inl ⟨by simp [hh], by simp [ht], rfl,
            by simp [Build.build, hh, ht, hp]⟩))⟩
      | some profile =>
        cases ho : b.out_dir with
        | none =>
          exact ⟨by simp [Build.build, hh, ht, hp, ho],
            Or.inr (Or.inr (Or.inr ⟨by simp [hh], by simp [ht], by simp [hp], rfl,
              by simp [Build.build, hh, ht, hp, ho]⟩))⟩
        | some out =>
          rcases h with h | h | h | h
          · exact absurd h (by simp [hh])
          · exact absurd h (by simp [ht])
          · exact absurd h (by simp [ho])
          · exact absurd h (by simp [hp])

/-- A configuration with `host` unset for the C1 witness. -/
def buildC1 : Build :=
  Build.mk none (some "x86_64-unknown-linux-gnu") (some ["target", "llvm-build"])
    (some "Release")

/-- A world for the C1 witness; its filesystem is entirely unreadable, so a
successful result there could only come from skipping the enumeration. -/
def worldC1 : World := World.mk false (fun _ => none)

/-- Witness for C1: with `host` unset, `build` aborts with the `HOST not
set` message and an empty event trace. -/
theorem build_aborts_before_cmake_on_missing_field_witness :
    (buildC1.host = none ∨ buildC1.target = none ∨ buildC1.out_dir = none ∨
      buildC1.profile = none) ∧
    ((buildC1.build worldC1).2 = [] ∧
      ((buildC1.host = none ∧
          (buildC1.build worldC1).1 = .error (.expectFail "HOST not set")) ∨
        (buildC1.host ≠ none ∧ buildC1.target = none ∧
          (buildC1.build worldC1).1 = .error (.expectFail "TARGET not set")) ∨
        (buildC1.host ≠ none ∧ buildC1.target ≠ none ∧ buildC1.profile = none ∧
          (buildC1.build worldC1).1 = .error (.expectFail "PROFILE not set")) ∨
        (buildC1.host ≠ none ∧ buildC1.target ≠ none ∧ buildC1.profile ≠ none ∧
          buildC1.out_dir = none ∧
          (buildC1.build worldC1).1 = .error (.expectFail "OUT_DIR not set")))) :=
  ⟨Or.inl rfl, build_aborts_before_cmake_on_missing_field buildC1 worldC1 (Or.inl rfl)⟩

/-- Claim C3: with all four fields set and a successful cmake run, `build`
returns an `Artifacts` whose `libs` list is exactly `libNamesOf` of the
listing of `<out_dir>/build/lib`: one entry per regular file, equal to the
file name truncated before its last dot, in enumeration order, with
non-file entries excluded. -/
theorem build_libs_enumeration (b : Build) (w : World) (out : Path)
    (entries : List (Option DirEntry)) (host target profile : String)
    (hh : b.host = some host) (ht : b.target = some target)
    (hp : b.profile = some profile) (ho : b.out_dir = some out)
    (hc : w.cmakeFails = false)
    (hr : w.read (Path.join out ["build", "lib"]) = some entries)
    (hall : entries.all entryOk = true) :
    (b.build w).1 =
      .ok ⟨Path.join out ["include"], Path.join out ["lib"], libNamesOf entries⟩ := by
  simp [Build.build, hh, ht, hp, ho, hc, hr, collectLibs_eq_ok entries hall]

/-- The listing of `<out_dir>/build/lib` in the spec's C3 scenario: files
`libFoo.a`, `libBar.so`, `notes.txt` plus a directory, in this order. -/
def entriesC3 : List (Option DirEntry) :=
  [some ⟨⟨some "libFoo.a"⟩, true⟩,
    some ⟨⟨some "libBar.so"⟩, true⟩,
    some ⟨⟨some "subdir"⟩, false⟩,
    some ⟨⟨some "notes.txt"⟩, true⟩]

/-- A fully populated configuration for the C3 witness. -/
def buildC3 : Build :=
  Build.mk (some "x86_64-unknown-linux-gnu") (some "x86_64-unknown-linux-gnu")
    (some ["target", "llvm-build"]) (some "Release")

/-- A world for the C3 witness: cmake succeeds and the library directory
holds the scenario listing. -/
def worldC3 : World := World.mk false (fun _ => some entriesC3)

/-- Witness for C3: on the scenario listing the returned library list is
exactly `["libFoo", "libBar", "notes"]`, the directory excluded. -/
theorem build_libs_enumeration_witness :
    (buildC3.out_dir = some ["target", "llvm-build"] ∧ worldC3.cmakeFails = false ∧
      worldC3.read (Path.join ["target", "llvm-build"] ["build", "lib"]) = some entriesC3 ∧
      entriesC3.all entryOk = true) ∧
    (buildC3.build worldC3).1 =
      .ok ⟨Path.join ["target", "llvm-build"] ["include"],
        Path.join ["target", "llvm-build"] ["lib"], ["libFoo", "libBar", "notes"]⟩ := by
  refine ⟨⟨rfl, rfl, rfl, by decide⟩, ?_⟩
  have h := build_libs_enumeration buildC3 worldC3 ["target", "llvm-build"] entriesC3
    "x86_64-unknown-linux-gnu" "x86_64-unknown-linux-gnu" "Release"
    rfl rfl rfl rfl rfl rfl (by decide)
  have hlibs : libNamesOf entriesC3 = ["libFoo", "libBar", "notes"] := by decide
  rw [h, hlibs]

/-- Claim C4: whenever `build` returns an `Artifacts`, its stored
`include_dir` and `lib_dir` equal `<out_dir>/include` and `<out_dir>/lib`
(no filesystem check is involved), and the accessors `include` and `lib`
return exactly the stored paths. -/
theorem build_artifact_dirs (b : Build) (w : World) (out : Path) (a : Artifacts)
    (ho : b.out_dir = some out) (h : (b.build w).1 = .ok a) :
    a.include = Path.join out ["include"] ∧ a.lib = Path.join out ["lib"] ∧
    a.include = a.include_dir ∧ a.lib = a.lib_dir := by
  cases hh : b.host with
  | none => simp [Build.build, hh] at h
  | some host =>
    cases ht : b.target with
    | none => simp [Build.build, hh, ht] at h
    | some target =>
      cases hp : b.profile with
      | none => simp [Build.build, hh, ht, hp] at h
      | some profile =>
        cases hc : w.cmakeFails with
        | true => simp [Build.build, hh, ht, hp, ho, hc] at h
        | false =>
          cases hr : w.read (Path.join out ["build", "lib"]) with
          | none => simp [Build.build, hh, ht, hp, ho, hc, hr] at h
          | some entries =>
            cases hcl : collectLibs entries with
            | error p => simp [Build.build, hh, ht, hp, ho, hc, hr, hcl] at h
            | ok libs =>
              simp only [Build.build, hh, ht, hp, ho, hc, hr, hcl,
                Bool.false_eq_true, if_false] at h
              rw [Except.ok.injEq] at h
              subst h
              exact ⟨rfl, rfl, rfl, rfl⟩

/-- A fully populated configuration for the C4 witness. -/
def buildC4 : Build :=
  Build.mk (some "aarch64-apple-darwin") (some "aarch64-apple-darwin")
    (some ["out", "llvm-build"]) (some "Debug")

/-- A world for the C4 witness: cmake succeeds and the library directory
exists but is empty. -/
def worldC4 : World := World.mk false (fun _ => some [])

/-- Witness for C4 at a concrete successful build. -/
theorem build_artifact_dirs_witness :
    (buildC4.out_dir = some ["out", "llvm-build"] ∧
      (buildC4.build worldC4).1 =
        .ok ⟨["out", "llvm-build", "include"], ["out", "llvm-build", "lib"], []⟩) ∧
    ((Artifacts.mk ["out", "llvm-build", "include"] ["out", "llvm-build", "lib"] []).include =
        Path.join ["out", "llvm-build"] ["include"] ∧
      (Artifacts.mk ["out", "llvm-build", "include"] ["out", "llvm-build", "lib"] []).lib =
        Path.join ["out", "llvm-build"] ["lib"] ∧
      (Artifacts.mk ["out", "llvm-build", "include"] ["out", "llvm-build", "lib"] []).include =
        (Artifacts.mk ["out", "llvm-build", "include"] ["out", "llvm-build", "lib"] []).include_dir ∧
      (Artifacts.mk ["out", "llvm-build", "include"] ["out", "llvm-build", "lib"] []).lib =
        (Artifacts.mk ["out", "llvm-build", "include"] ["out", "llvm-build", "lib"] []).lib_dir) :=
  ⟨⟨rfl, rfl⟩, build_artifact_dirs buildC4 worldC4 ["out", "llvm-build"] _ rfl rfl⟩

/-- Claim C7: if the listing of `<out_dir>/build/lib` contains a regular
file whose (Unicode) name has no `.` delimiter, `build` aborts — the
`rfind` unwrap fails there, or an earlier entry already aborted the
sequential pipeline — and never returns an `Artifacts`, partial or not. -/
theorem build_aborts_on_dotless_filename (b : Build) (w : World) (out : Path)
    (entries : List (Option DirEntry)) (e : DirEntry) (name : String)
    (ho : b.out_dir = some out)
    (hr : w.read (Path.join out ["build", "lib"]) = some entries)
    (he : some e ∈ entries) (hf : e.isFile = true)
    (hn : e.fileName.intoString? = some name) (hnd : '.' ∉ name.data) :
    ∀ a : Artifacts, (b.build w).1 ≠ .ok a := by
  intro a h
  have hcontains : name.data.contains '.' = false := by
    cases hq : name.data.contains '.' with
    | false => rfl
    | true => exact absurd (by simpa using hq) hnd
  have hbad : entryOk (some e) = false := by
    simp only [entryOk, hf, hn, Bool.not_true, Bool.false_or]
    exact hcontains
  obtain ⟨p, hp⟩ := collectLibs_isError_of_bad entries (some e) he hbad
  cases hh : b.host with
  | none => simp [Build.build, hh] at h
  | some host =>
    cases ht : b.target with
    | none => simp [Build.build, hh, ht] at h
    | some target =>
      cases hpr : b.profile with
      | none => simp [Build.build, hh, ht, hpr] at h
      | some profile =>
        cases hc : w.cmakeFails with
        | true => simp [Build.build, hh, ht, hpr, ho, hc] at h
        | false => simp [Build.build, hh, ht, hpr, ho, hc, hr, hp] at h

/-- A fully populated configuration for the C7 witness. -/
def buildC7 : Build :=
  Build.mk (some "x86_64-pc-windows-msvc") (some "x86_64-pc-windows-msvc")
    (some ["target", "llvm-build"]) (some "Release")

/-- A world for the C7 witness: the library directory holds one regular
file named `README`, which has no extension delimiter. -/
def worldC7 : World :=
  World.mk false (fun _ => some [some ⟨⟨some "README"⟩, true⟩])

/-- Witness for C7: with a dotless regular file present, `build` does not
return the (otherwise plausible) empty-library `Artifacts`. -/
theorem build_aborts_on_dotless_filename_witness :
    (buildC7.out_dir = some ["target", "llvm-build"] ∧
      worldC7.read (Path.join ["target", "llvm-build"] ["build", "lib"]) =
        some [some ⟨⟨some "README"⟩, true⟩] ∧
      some (DirEntry.mk ⟨some "README"⟩ true) ∈ [some (DirEntry.mk ⟨some "README"⟩ true)] ∧
      (DirEntry.mk ⟨some "README"⟩ true).isFile = true ∧
      (DirEntry.mk ⟨some "README"⟩ true).fileName.intoString? = some "README" ∧
      '.' ∉ "README".data) ∧
    (buildC7.build worldC7).1 ≠
      .ok ⟨["target", "llvm-build", "include"], ["target", "llvm-build", "lib"], []⟩ :=
  ⟨⟨rfl, rfl, by decide, rfl, rfl, by decide⟩,
    build_aborts_on_dotless_filename buildC7 worldC7 ["target", "llvm-build"]
      [some ⟨⟨some "README"⟩, true⟩] ⟨⟨some "README"⟩, true⟩ "README"
      rfl rfl (by decide) rfl rfl (by decide)
      ⟨["target", "llvm-build", "include"], ["target", "llvm-build", "lib"], []⟩⟩

/-- Claim C10: if the listing of `<out_dir>/build/lib` contains a regular
file whose name is not valid Unicode, `build` aborts — the `into_string`
unwrap fails there, or an earlier entry already aborted the pipeline — and
never returns an `Artifacts`.  Consequently every library name in a
returned `Artifacts` stems from a successful Unicode conversion. -/
theorem build_aborts_on_non_unicode_filename (b : Build) (w : World) (out : Path)
    (entries : List (Option DirEntry)) (e : DirEntry)
    (ho : b.out_dir = some out)
    (hr : w.read (Path.join out ["build", "lib"]) = some entries)
    (he : some e ∈ entries) (hf : e.isFile = true)
    (hn : e.fileName.intoString? = none) :
    ∀ a : Artifacts, (b.build w).1 ≠ .ok a := by
  intro a h
  have hbad : entryOk (some e) = false := by
    simp [entryOk, hf, hn]
  obtain ⟨p, hp⟩ := collectLibs_isError_of_bad entries (some e) he hbad
  cases hh : b.host with
  | none => simp [Build.build, hh] at h
  | some host =>
    cases ht : b.target with
    | none => simp [Build.build, hh, ht] at h
    | some target =>
      cases hpr : b.profile with
      | none => simp [Build.build, hh, ht, hpr] at h
      | some profile =>
        cases hc : w.cmakeFails with
        | true => simp [Build.build, hh, ht, hpr, ho, hc] at h
        | false => simp [Build.build, hh, ht, hpr, ho, hc, hr, hp] at h

/-- A fully populated configuration for the C10 witness. -/
def buildC10 : Build :=
  Build.mk (some "x86_64-unknown-linux-gnu") (some "x86_64-unknown-linux-gnu")
    (some ["target", "llvm-build"]) (some "Release")

/-- A world for the C10 witness: the library directory holds one regular
file whose name is not valid Unicode. -/
def worldC10 : World :=
  World.mk false (fun _ => some [some ⟨⟨none⟩, true⟩])

/-- Witness for C10: with a non-Unicode-named regular file present,
`build` does not return the empty-library `Artifacts`. -/
theorem build_aborts_on_non_unicode_filename_witness :
    (buildC10.out_dir = some ["target", "llvm-build"] ∧
      worldC10.read (Path.join ["target", "llvm-build"] ["build", "lib"]) =
        some [some ⟨⟨none⟩, true⟩] ∧
      some (DirEntry.mk ⟨none⟩ true) ∈ [some (DirEntry.mk ⟨none⟩ true)] ∧
      (DirEntry.mk ⟨none⟩ true).isFile = true ∧
      (DirEntry.mk ⟨none⟩ true).fileName.intoString? = none) ∧
    (buildC10.build worldC10).1 ≠
      .ok ⟨["target", "llvm-build", "include"], ["target", "llvm-build", "lib"], []⟩ :=
  ⟨⟨rfl, rfl, by decide, rfl, rfl⟩,
    build_aborts_on_non_unicode_filename buildC10 worldC10 ["target", "llvm-build"]
      [some ⟨⟨none⟩, true⟩] ⟨⟨none⟩, true⟩ rfl rfl (by decide) rfl rfl
      ⟨["target", "llvm-build", "include"], ["target", "llvm-build", "lib"], []⟩⟩

end LlvmSrc
